import Mathlib

/-!
Verification of the scanner-proxy repository (proxy_server.py and
scanner_bridge.py) against its natural-language specification.

The development shallowly embeds the two route handlers (POST /get_images and
GET /content/{path}), the httpx client behaviour they rely on, and the desktop
application's configuration/lifecycle operations (update_configuration,
start_server, stop_server) as executable Lean definitions, and proves the
specified properties about them.

Modelling conventions:
  * Bytes are Nat values; a body arriving on the network is a list of chunks,
    each a list of bytes.
  * The outbound network call of a handler is abstracted by an "outcome" value
    describing what the httpx call did (a response with status / body, a read
    timeout, or any other exception carrying its str(e) message).  The handler
    definitions are then total functions of that outcome, mirroring the
    try/except structure of the source line by line.
  * Python str.strip / str.isdigit / int are modelled over the character list
    of the string (ASCII digits), so that every definition evaluates inside
    the kernel.
-/

/-- JSON values, as produced by response.json() and by returning a dict from a
FastAPI route handler. -/
inductive Json where
  | str (s : String)
  | num (n : Int)
  | bool (b : Bool)
  | null
  | arr (xs : List Json)
  | obj (fields : List (String × Json))

/-- Result of response.json(): either the parsed value or the str(e) message of
the parse exception. -/
inductive JsonParse where
  | ok (j : Json)
  | fail (msg : String)

/-- Outcome of the outbound client.post call of the /get_images handler,
together with what the subsequent response.json() would yield: either an HTTP
response arrived (with its status code and JSON-parse result of its body), or
the call raised httpx.ReadTimeout, or it raised some other exception whose
str(e) is carried. -/
inductive PostOutcome where
  | response (status : Nat) (body : JsonParse)
  | readTimeout
  | error (msg : String)

/-- httpx Response.is_success: the check behind raise_for_status, which raises
httpx.HTTPStatusError for every status outside 2xx. -/
def is2xx (status : Nat) : Bool :=
  200 ≤ status && status ≤ 299

/-- The dict literal both handlers return on failure. -/
def errorJson (msg : String) : Json :=
  Json.obj [("error", Json.str msg)]

/-- Model of str(e) for the httpx.HTTPStatusError raised by raise_for_status on
a non-2xx status: some message determined by the response; its exact phrasing
lives in httpx, outside this repository.  No theorem below depends on its text,
only on the "Failed to ..." prefix the handlers prepend to it. -/
def httpStatusErrorStr (status : Nat) : String :=
  "error response " ++ toString status ++ " from upstream"

/-- Shared body of the POST /get_images route handler.  proxy_server.py lines
21-34 and scanner_bridge.py lines 33-46 are identical except for the literal
text of the timeout message, passed here as timeoutMsg.  The source:
try: response = await client.post(...); response.raise_for_status();
return response.json() -- except httpx.ReadTimeout: return the timeout error
dict -- except Exception as e: return the "Failed to reach scanner" error
dict.  Because raise_for_status runs before response.json(), a non-2xx status
reaches the generic handler without the body ever being parsed. -/
def get_images_core (timeoutMsg : String) (o : PostOutcome) : Json :=
  match o with
  | PostOutcome.response status body =>
      if is2xx status then
        match body with
        | JsonParse.ok j => j
        | JsonParse.fail m => errorJson ("Failed to reach scanner: " ++ m)
      else
        errorJson ("Failed to reach scanner: " ++ httpStatusErrorStr status)
  | PostOutcome.readTimeout => errorJson timeoutMsg
  | PostOutcome.error m => errorJson ("Failed to reach scanner: " ++ m)

/-- The timeout message of scanner_bridge.py line 44, an f-string interpolating
the currently configured self.scanner_url. -/
def bridgeTimeoutMessage (scanner_url : String) : String :=
  "Scanner service timed out. Make sure it is running on " ++ scanner_url

/-- POST /get_images handler of scanner_bridge.py (lines 33-46), parameterised
by the scanner_url the closure reads from the ScannerProxyApp object. -/
def ScannerBridge.get_images (scanner_url : String) : PostOutcome → Json :=
  get_images_core (bridgeTimeoutMessage scanner_url)

/-- The module-level backend URL constant of proxy_server.py line 18. -/
def SCANNER_URL : String := "http://localhost:15000"

/-- POST /get_images handler of proxy_server.py (lines 21-34), whose timeout
message is the hard-coded literal of line 32. -/
def ProxyServer.get_images : PostOutcome → Json :=
  get_images_core "Scanner service timed out. Make sure it is running on localhost:15000"

/-- The outbound /get_images call succeeded: an HTTP response with a 2xx status
arrived and its body parsed as JSON.  Everything else takes one of the two
except branches of the handler. -/
def PostOutcome.succeeds : PostOutcome → Bool
  | PostOutcome.response s (JsonParse.ok _) => is2xx s
  | _ => false

/-- An upstream resource as served by the backend for GET /content/{path}: its
status, its body as the chunk sequence in which the network delivers it, and
its declared content-type header (httpx headers are case-insensitive, so
resp.headers.get "content-type" retrieves exactly this value). -/
structure UpstreamResource where
  status : Nat
  chunks : List (List Nat)
  contentType : Option String

/-- An httpx Response as the handler sees it after await client.get(url)
returns.  The client was not opened in streaming mode (client.get without
stream=True), so httpx reads the entire body from the network into
Response.content before get returns: content holds the fully materialised
byte buffer. -/
structure HttpxResponse where
  status : Nat
  content : List Nat
  contentType : Option String

/-- Model of await client.get(url) on a resource the backend serves: the whole
chunk sequence is downloaded and concatenated into the in-memory content
buffer of the returned response. -/
def httpxGet (r : UpstreamResource) : HttpxResponse :=
  { status := r.status, content := r.chunks.flatten, contentType := r.contentType }

/-- Model of Response.aiter_bytes() (no chunk_size argument) on a response whose
content has already been read: httpx yields the slices
content[i : i + chunk_size] for chunk_size = len(content), i.e. the entire
materialised content as a single chunk, and nothing for an empty content. -/
def aiter_bytes (resp : HttpxResponse) : List (List Nat) :=
  if resp.content.isEmpty then [] else [resp.content]

/-- Outcome of the outbound client.get call of the /content handler: either the
GET completed (full body read, per httpxGet) for the resource the backend
serves, or some exception was raised during connection or download, carrying
its str(e). -/
inductive ContentOutcome where
  | upstream (r : UpstreamResource)
  | failure (msg : String)

/-- The outbound /content call succeeded: the download completed with a 2xx
status.  A non-2xx response makes raise_for_status raise into the except
branch. -/
def ContentOutcome.succeeds : ContentOutcome → Bool
  | ContentOutcome.upstream r => is2xx r.status
  | ContentOutcome.failure _ => false

/-- What a route handler returns to FastAPI: either a dict/JSON value or a
StreamingResponse built from a chunk sequence and a media type. -/
inductive HandlerValue where
  | json (j : Json)
  | stream (chunks : List (List Nat)) (mediaType : Option String)

/-- GET /content/{path} handler, identical in proxy_server.py lines 37-46 and
scanner_bridge.py lines 48-57, parameterised by the configured scanner_url.
The first component records the outbound GET requests the handler issues: the
single await client.get(url) of the source, at
url = f-string scanner_url / "/content/" / path.  The second component is
the handler's return value: on success a StreamingResponse over
resp.aiter_bytes() with media_type resp.headers.get("content-type"), and the
"Failed to fetch image from scanner" error dict when client.get or
raise_for_status raises. -/
def proxy_content (scanner_url path : String) (o : ContentOutcome) :
    List String × HandlerValue :=
  let url := scanner_url ++ "/content/" ++ path
  ([url],
    match o with
    | ContentOutcome.failure m =>
        HandlerValue.json (errorJson ("Failed to fetch image from scanner: " ++ m))
    | ContentOutcome.upstream r =>
        let resp := httpxGet r
        if is2xx resp.status then
          HandlerValue.stream (aiter_bytes resp) resp.contentType
        else
          HandlerValue.json
            (errorJson ("Failed to fetch image from scanner: " ++ httpStatusErrorStr resp.status)))

/-- An HTTP response as FastAPI renders it to the frontend. -/
structure HttpResponse where
  status : Nat
  body : HandlerValue

/-- FastAPI rendering of a handler's return value: a plain dict/JSON return is
rendered as a JSONResponse with the default status 200, and a
StreamingResponse (no status_code argument anywhere in the source) keeps its
default status 200.  Neither handler ever sets a status code. -/
def render (v : HandlerValue) : HttpResponse :=
  { status := 200, body := v }

/-- A FastAPI application object as built by setup_fastapi: the CORS middleware
freezes allow_origins=[self.frontend_url] at construction time, so the only
configuration data baked into the app object itself is that origin.  The route
handlers registered on it are closures over the ScannerProxyApp object and
read self.scanner_url afresh on every request. -/
structure FastApp where
  corsOrigin : String
deriving DecidableEq

/-- Mutable state of a ScannerProxyApp instance (scanner_bridge.py lines
12-31): the four configuration attributes, the app object last built by
setup_fastapi, and the server_running flag. -/
structure ProxyAppState where
  scanner_url : String
  frontend_url : String
  host : String
  port : Nat
  app : FastApp
  server_running : Bool
deriving DecidableEq

/-- A bound uvicorn listener: uvicorn.run(self.app, host=self.host,
port=self.port) captures the app object and the bind address at the moment the
serving thread starts. -/
structure Listener where
  app : FastApp
  host : String
  port : Nat
deriving DecidableEq

/-- State of the desktop application: the ScannerProxyApp it owns, plus every
uvicorn listener currently bound (the source offers no way to unbind one, so
this is a list that only grows). -/
structure DesktopState where
  proxy : ProxyAppState
  serving : List Listener
deriving DecidableEq

/-- ScannerProxyApp.__init__ (scanner_bridge.py lines 13-22): default
configuration, setup_fastapi builds the app with the default frontend origin,
server not running. -/
def ScannerProxyApp.init : ProxyAppState :=
  { scanner_url := "http://localhost:15000"
    frontend_url := "http://192.168.1.8:5173"
    host := "0.0.0.0"
    port := 8000
    app := { corsOrigin := "http://192.168.1.8:5173" }
    server_running := false }

/-- Model of Python str.strip(): drop whitespace from both ends. -/
def pyStrip (s : String) : String :=
  ⟨List.reverse (List.dropWhile Char.isWhitespace
    (List.reverse (List.dropWhile Char.isWhitespace s.data)))⟩

/-- Model of Python str.isdigit() for ASCII input: nonempty and every character
a digit. -/
def pyIsdigit (s : String) : Bool :=
  !s.data.isEmpty && s.data.all Char.isDigit

/-- Model of Python int() on a digit string (the only calls in the source are
guarded by isdigit). -/
def pyInt (s : String) : Nat :=
  s.data.foldl (fun acc c => 10 * acc + (c.toNat - 48)) 0

/-- ScannerProxyApp.update_config (scanner_bridge.py lines 59-65): overwrite
the four configuration attributes (self.port = int(port)), then
self.app = FastAPI() and setup_fastapi(), which bakes the new frontend_url
into the new app object's CORS middleware.  The server_running flag and any
running server are untouched. -/
def ScannerProxyApp.update_config (s : ProxyAppState)
    (scanner_url frontend_url host port : String) : ProxyAppState :=
  { s with
    scanner_url := scanner_url
    frontend_url := frontend_url
    host := host
    port := pyInt port
    app := { corsOrigin := frontend_url } }

/-- How a call to DesktopApp.update_configuration resolved.  The source rejects
invalid input by an early plain return that performs no update; the spec's
error taxonomy names that outcome ConfigValidationError, and this embedding
tags the two early-return branches with it. -/
inductive UpdateOutcome where
  | applied
  | configValidationError
deriving DecidableEq

/-- DesktopApp.update_configuration (scanner_bridge.py lines 187-203): read and
strip the four entry strings; return early if any is empty; return early if
the port is not a digit string or int(port) is outside 1..65535 (the source
writes not (1 <= int(port) <= 65535), stated here as the equivalent
disjunction); otherwise call proxy_app.update_config with the stripped
values.  No branch touches the serving list: the function never starts or
stops a server. -/
def DesktopApp.update_configuration (st : DesktopState)
    (scannerEntry frontendEntry hostEntry portEntry : String) :
    DesktopState × UpdateOutcome :=
  if pyStrip scannerEntry = "" ∨ pyStrip frontendEntry = "" ∨
      pyStrip hostEntry = "" ∨ pyStrip portEntry = "" then
    (st, UpdateOutcome.configValidationError)
  else if pyIsdigit (pyStrip portEntry) = false ∨ pyInt (pyStrip portEntry) < 1 ∨
      65535 < pyInt (pyStrip portEntry) then
    (st, UpdateOutcome.configValidationError)
  else
    ({ st with
        proxy := ScannerProxyApp.update_config st.proxy (pyStrip scannerEntry)
          (pyStrip frontendEntry) (pyStrip hostEntry) (pyStrip portEntry) },
      UpdateOutcome.applied)

/-- Observable side effects of the lifecycle operations.  probeTcp is emitted
by no operation of the source; it exists so that the specification's
readiness-probe property can be stated about the action traces. -/
inductive LifecycleAction where
  | spawnServerThread (host : String) (port : Nat)
  | setRunning (b : Bool)
  | probeTcp (host : String) (port : Nat)
deriving DecidableEq

/-- Whether a lifecycle action is a readiness-probe connection attempt. -/
def isProbe : LifecycleAction → Bool
  | LifecycleAction.probeTcp _ _ => true
  | _ => false

/-- Whether some bound listener already occupies a port. -/
def portBound (st : DesktopState) (p : Nat) : Bool :=
  st.serving.any (fun l => l.port = p)

/-- DesktopApp.start_server (scanner_bridge.py lines 205-215) together with the
eventual effect of the thread it spawns (run_server_thread, lines 223-230).
If server_running is already true, return immediately (no thread, no state
change).  Otherwise spawn the serving thread and set server_running = True.
In the thread, uvicorn.run binds a new listener for the current app object and
bind address; if the port is already occupied by an earlier listener,
uvicorn.run raises, run_server prints the error, and the finally block of
run_server_thread resets server_running to False, leaving the state as it
was.  The returned list is the trace of observable actions in order. -/
def DesktopApp.start_server (st : DesktopState) :
    DesktopState × List LifecycleAction :=
  if st.proxy.server_running then
    (st, [])
  else if portBound st st.proxy.port then
    (st,
      [LifecycleAction.spawnServerThread st.proxy.host st.proxy.port,
        LifecycleAction.setRunning true, LifecycleAction.setRunning false])
  else
    ({ st with
        serving := st.serving ++
          [{ app := st.proxy.app, host := st.proxy.host, port := st.proxy.port }],
        proxy := { st.proxy with server_running := true } },
      [LifecycleAction.spawnServerThread st.proxy.host st.proxy.port,
        LifecycleAction.setRunning true])

/-- DesktopApp.stop_server (scanner_bridge.py lines 217-221): if
server_running is already false, return; otherwise set server_running =
False and refresh the status label.  Nothing signals uvicorn: the flag is
never read by the serving loop, so the serving list — the bound listeners —
is untouched in every case. -/
def DesktopApp.stop_server (st : DesktopState) : DesktopState :=
  if st.proxy.server_running = false then st
  else { st with proxy := { st.proxy with server_running := false } }

/-- The desktop state right after DesktopApp.__init__ built its
ScannerProxyApp and before the automatic start_server call (scanner_bridge.py
lines 88-95): no listener bound yet. -/
def initialState : DesktopState :=
  { proxy := ScannerProxyApp.init, serving := [] }

/-- The desktop state after the automatic start_server of __init__. -/
def runningState : DesktopState :=
  (DesktopApp.start_server initialState).1

/-- A response as the frontend sees it: the CORS middleware of the app object
the listener serves adds access-control-allow-origin with the origin frozen
into that app when it was built. -/
structure CorsedResponse where
  allowOrigin : String
  response : HttpResponse

/-- CORS decoration a bound listener applies to every response it serves. -/
def serveOn (l : Listener) (r : HttpResponse) : CorsedResponse :=
  { allowOrigin := l.app.corsOrigin, response := r }

/-- A POST /get_images request served by a bound listener while the desktop
application is in state st: the route handler is a closure over the
ScannerProxyApp object and reads self.scanner_url at request time (so it sees
the current configuration), while the CORS origin was frozen into the
listener's app object when setup_fastapi built it. -/
def DesktopState.serveGetImages (st : DesktopState) (l : Listener)
    (o : PostOutcome) : CorsedResponse :=
  serveOn l (render (HandlerValue.json
    (ScannerBridge.get_images st.proxy.scanner_url o)))

/-- Helper: a message with the generic "Failed to reach scanner: " prefix is
never the timeout message, whatever the interpolated parts — the two begin
with different characters. -/
theorem failedMsg_ne_timeoutMsg (m scanner_url : String) :
    "Failed to reach scanner: " ++ m ≠ bridgeTimeoutMessage scanner_url := by
  intro h
  have hh : ("Failed to reach scanner: " ++ m).data.head?
      = (bridgeTimeoutMessage scanner_url).data.head? := by rw [h]
  have h1 : ("Failed to reach scanner: " ++ m).data.head? = some 'F' := rfl
  have h2 : (bridgeTimeoutMessage scanner_url).data.head? = some 'S' := rfl
  rw [h1, h2] at hh
  exact absurd hh (by decide)

/-- C1: for every inbound POST /get_images request and every outcome of the
outbound call to the backend — success, timeout, transport failure, non-2xx
status, or an upstream body that fails to parse as JSON — the handler never
raises outward: it always returns a value, namely the parsed upstream JSON
payload unchanged on success and a structured error payload on any failure.
Quantifying over timeoutMsg covers both source variants of the handler. -/
theorem forwardJson_never_raises (timeoutMsg : String) (o : PostOutcome) :
    (PostOutcome.succeeds o = true ∧ ∃ s j,
        o = PostOutcome.response s (JsonParse.ok j) ∧ is2xx s = true ∧
        get_images_core timeoutMsg o = j)
  ∨ (PostOutcome.succeeds o = false ∧ ∃ m,
        get_images_core timeoutMsg o = errorJson m) := by
  cases o with
  | response s b =>
    cases b with
    | ok j =>
      by_cases h : is2xx s = true
      · exact Or.inl ⟨by simp [PostOutcome.succeeds, h], s, j, rfl, h,
          by simp [get_images_core, h]⟩
      · have hf : is2xx s = false := by simpa using h
        exact Or.inr ⟨by simp [PostOutcome.succeeds, hf],
          "Failed to reach scanner: " ++ httpStatusErrorStr s,
          by simp [get_images_core, hf]⟩
    | fail m =>
      by_cases h : is2xx s = true
      · exact Or.inr ⟨rfl, "Failed to reach scanner: " ++ m,
          by simp [get_images_core, h]⟩
      · have hf : is2xx s = false := by simpa using h
        exact Or.inr ⟨rfl, "Failed to reach scanner: " ++ httpStatusErrorStr s,
          by simp [get_images_core, hf]⟩
  | readTimeout => exact Or.inr ⟨rfl, timeoutMsg, rfl⟩
  | error m => exact Or.inr ⟨rfl, "Failed to reach scanner: " ++ m, rfl⟩

/-- C4: among failed outbound forwarding calls of POST /get_images, the error
payload is the timeout message — which names the configured backend URL —
exactly when the failure was the upstream read timeout; every other transport
or non-2xx failure produces the structured error carrying the underlying
message behind the generic "Failed to reach scanner: " tag. -/
theorem upstreamTimeout_tag_iff (scanner_url : String) (o : PostOutcome)
    (h : PostOutcome.succeeds o = false) :
    (ScannerBridge.get_images scanner_url o
        = errorJson (bridgeTimeoutMessage scanner_url) ↔ o = PostOutcome.readTimeout)
  ∧ (o ≠ PostOutcome.readTimeout → ∃ m,
      ScannerBridge.get_images scanner_url o
        = errorJson ("Failed to reach scanner: " ++ m))
  ∧ (∃ p, bridgeTimeoutMessage scanner_url = p ++ scanner_url) := by
  refine ⟨⟨?_, ?_⟩, ?_,
    ⟨"Scanner service timed out. Make sure it is running on ", rfl⟩⟩
  · intro he
    cases o with
    | readTimeout => rfl
    | response s b =>
      exfalso
      cases b with
      | ok j =>
        have hs : is2xx s = false := by simpa [PostOutcome.succeeds] using h
        have he2 : "Failed to reach scanner: " ++ httpStatusErrorStr s
            = bridgeTimeoutMessage scanner_url := by
          simpa [ScannerBridge.get_images, get_images_core, hs, errorJson] using he
        exact failedMsg_ne_timeoutMsg _ _ he2
      | fail m =>
        by_cases hs : is2xx s = true
        · have he2 : "Failed to reach scanner: " ++ m
              = bridgeTimeoutMessage scanner_url := by
            simpa [ScannerBridge.get_images, get_images_core, hs, errorJson] using he
          exact failedMsg_ne_timeoutMsg _ _ he2
        · have hs2 : is2xx s = false := by simpa using hs
          have he2 : "Failed to reach scanner: " ++ httpStatusErrorStr s
              = bridgeTimeoutMessage scanner_url := by
            simpa [ScannerBridge.get_images, get_images_core, hs2, errorJson] using he
          exact failedMsg_ne_timeoutMsg _ _ he2
    | error m =>
      exfalso
      have he2 : "Failed to reach scanner: " ++ m
          = bridgeTimeoutMessage scanner_url := by
        simpa [ScannerBridge.get_images, get_images_core, errorJson] using he
      exact failedMsg_ne_timeoutMsg _ _ he2
  · intro ho
    subst ho
    rfl
  · intro hne
    cases o with
    | readTimeout => exact absurd rfl hne
    | response s b =>
      cases b with
      | ok j =>
        have hs : is2xx s = false := by simpa [PostOutcome.succeeds] using h
        exact ⟨httpStatusErrorStr s,
          by simp [ScannerBridge.get_images, get_images_core, hs]⟩
      | fail m =>
        by_cases hs : is2xx s = true
        · exact ⟨m, by simp [ScannerBridge.get_images, get_images_core, hs]⟩
        · have hs2 : is2xx s = false := by simpa using hs
          exact ⟨httpStatusErrorStr s,
            by simp [ScannerBridge.get_images, get_images_core, hs2]⟩
    | error m => exact ⟨m, rfl⟩

/-- C4 witness: at the read-timeout outcome with the default backend URL, the
handler produces exactly the timeout-tagged error payload. -/
theorem upstreamTimeout_tag_iff_witness :
    PostOutcome.succeeds PostOutcome.readTimeout = false
  ∧ ((ScannerBridge.get_images "http://localhost:15000" PostOutcome.readTimeout
        = errorJson (bridgeTimeoutMessage "http://localhost:15000")
      ↔ PostOutcome.readTimeout = PostOutcome.readTimeout)
    ∧ (PostOutcome.readTimeout ≠ PostOutcome.readTimeout → ∃ m,
        ScannerBridge.get_images "http://localhost:15000" PostOutcome.readTimeout
          = errorJson ("Failed to reach scanner: " ++ m))
    ∧ (∃ p, bridgeTimeoutMessage "http://localhost:15000"
        = p ++ "http://localhost:15000")) :=
  ⟨rfl, upstreamTimeout_tag_iff "http://localhost:15000" PostOutcome.readTimeout rfl⟩

/-- C2: for every path string, the GET /content handler issues exactly one
outbound GET, to scanner_url ++ "/content/" ++ path, and on a 2xx upstream
response returns a stream carrying exactly the upstream body's bytes — in
order and in full — with the upstream's declared content type. -/
theorem streamContent_fidelity (scanner_url path : String) (o : ContentOutcome) :
    (proxy_content scanner_url path o).1 = [scanner_url ++ "/content/" ++ path]
  ∧ (∀ r, o = ContentOutcome.upstream r → is2xx r.status = true →
      ∃ chunks, (proxy_content scanner_url path o).2
          = HandlerValue.stream chunks r.contentType
        ∧ chunks.flatten = r.chunks.flatten) := by
  constructor
  · rfl
  · rintro r rfl hs
    refine ⟨aiter_bytes (httpxGet r), by simp [proxy_content, httpxGet, hs], ?_⟩
    cases hc : r.chunks.flatten with
    | nil => simp [aiter_bytes, httpxGet, hc]
    | cons x xs => simp [aiter_bytes, httpxGet, hc]

/-- C2 witness: a concrete 2xx upstream resource of three bytes in two chunks
is relayed byte-for-byte with its content type, over a single outbound GET at
the concatenated URL. -/
theorem streamContent_fidelity_witness :
    ((proxy_content "http://localhost:15000" "img/1.png"
        (ContentOutcome.upstream
          { status := 200, chunks := [[7], [8, 9]], contentType := some "image/jpeg" })).1
      = ["http://localhost:15000" ++ "/content/" ++ "img/1.png"])
  ∧ (∃ chunks, (proxy_content "http://localhost:15000" "img/1.png"
        (ContentOutcome.upstream
          { status := 200, chunks := [[7], [8, 9]], contentType := some "image/jpeg" })).2
      = HandlerValue.stream chunks (some "image/jpeg")
    ∧ chunks.flatten = ([[7], [8, 9]] : List (List Nat)).flatten) :=
  ⟨(streamContent_fidelity "http://localhost:15000" "img/1.png"
      (ContentOutcome.upstream
        { status := 200, chunks := [[7], [8, 9]], contentType := some "image/jpeg" })).1,
    (streamContent_fidelity "http://localhost:15000" "img/1.png"
      (ContentOutcome.upstream
        { status := 200, chunks := [[7], [8, 9]], contentType := some "image/jpeg" })).2
      { status := 200, chunks := [[7], [8, 9]], contentType := some "image/jpeg" }
      rfl (by decide)⟩

/-- C10: every failure on POST /get_images or GET /content/{path} — timeout,
unreachable backend, non-2xx upstream status, or unparseable upstream JSON —
is rendered as an HTTP response with status 200 whose body is a JSON object
with the single key "error"; the failure kind is never reflected in the
status code, only in the message text. -/
theorem failure_renders_200_error (timeoutMsg scanner_url path : String)
    (po : PostOutcome) (go : ContentOutcome)
    (hp : PostOutcome.succeeds po = false)
    (hg : ContentOutcome.succeeds go = false) :
    (∃ m, render (HandlerValue.json (get_images_core timeoutMsg po))
        = { status := 200, body := HandlerValue.json (errorJson m) })
  ∧ (∃ m, render (proxy_content scanner_url path go).2
        = { status := 200, body := HandlerValue.json (errorJson m) }) := by
  constructor
  · cases po with
    | response s b =>
      cases b with
      | ok j =>
        have hs : is2xx s = false := by simpa [PostOutcome.succeeds] using hp
        exact ⟨"Failed to reach scanner: " ++ httpStatusErrorStr s,
          by simp [render, get_images_core, hs]⟩
      | fail m =>
        by_cases hs : is2xx s = true
        · exact ⟨"Failed to reach scanner: " ++ m,
            by simp [render, get_images_core, hs]⟩
        · have hs2 : is2xx s = false := by simpa using hs
          exact ⟨"Failed to reach scanner: " ++ httpStatusErrorStr s,
            by simp [render, get_images_core, hs2]⟩
    | readTimeout => exact ⟨timeoutMsg, rfl⟩
    | error m => exact ⟨"Failed to reach scanner: " ++ m, rfl⟩
  · cases go with
    | upstream r =>
      have hs : is2xx r.status = false := by simpa [ContentOutcome.succeeds] using hg
      exact ⟨"Failed to fetch image from scanner: " ++ httpStatusErrorStr r.status,
        by simp [render, proxy_content, httpxGet, hs]⟩
    | failure m => exact ⟨"Failed to fetch image from scanner: " ++ m, rfl⟩

/-- C10 witness: a timed-out POST and a failed GET both render as 200 with a
single-key "error" body. -/
theorem failure_renders_200_error_witness :
    PostOutcome.succeeds PostOutcome.readTimeout = false
  ∧ ContentOutcome.succeeds (ContentOutcome.failure "connection refused") = false
  ∧ ((∃ m, render (HandlerValue.json (get_images_core
        "Scanner service timed out. Make sure it is running on localhost:15000"
        PostOutcome.readTimeout))
        = { status := 200, body := HandlerValue.json (errorJson m) })
    ∧ (∃ m, render (proxy_content "http://localhost:15000" "img/1.png"
          (ContentOutcome.failure "connection refused")).2
        = { status := 200, body := HandlerValue.json (errorJson m) })) :=
  ⟨rfl, rfl,
    failure_renders_200_error
      "Scanner service timed out. Make sure it is running on localhost:15000"
      "http://localhost:15000" "img/1.png"
      PostOutcome.readTimeout (ContentOutcome.failure "connection refused") rfl rfl⟩

/-- C3: for every proposed configuration in which some (stripped) string field
is empty, or the port is not numeric, or the numeric port lies outside
1..65535, update_configuration resolves as ConfigValidationError and returns
the desktop state exactly as it was: the active configuration, the built app,
and every bound listener are unchanged. -/
theorem invalidConfig_rejected_unchanged (st : DesktopState) (a b c d : String)
    (h : pyStrip a = "" ∨ pyStrip b = "" ∨ pyStrip c = "" ∨ pyStrip d = ""
      ∨ pyIsdigit (pyStrip d) = false ∨ pyInt (pyStrip d) < 1
      ∨ 65535 < pyInt (pyStrip d)) :
    DesktopApp.update_configuration st a b c d
      = (st, UpdateOutcome.configValidationError) := by
  unfold DesktopApp.update_configuration
  split
  · rfl
  · split
    · rfl
    · rename_i h1 h2
      exfalso
      rw [not_or, not_or, not_or] at h1
      rw [not_or, not_or] at h2
      obtain ⟨na, nb, nc, nd⟩ := h1
      obtain ⟨nx, ny, nz⟩ := h2
      rcases h with h | h | h | h | h | h | h
      exacts [na h, nb h, nc h, nd h, nx h, ny h, nz h]

/-- C3 witness: submitting port "0" to a freshly constructed desktop
application is rejected and leaves the state untouched. -/
theorem invalidConfig_rejected_unchanged_witness :
    pyInt (pyStrip "0") < 1
  ∧ DesktopApp.update_configuration initialState
      "http://localhost:15000" "http://192.168.1.8:5173" "0.0.0.0" "0"
      = (initialState, UpdateOutcome.configValidationError) :=
  ⟨by decide,
    invalidConfig_rejected_unchanged initialState
      "http://localhost:15000" "http://192.168.1.8:5173" "0.0.0.0" "0"
      (Or.inr (Or.inr (Or.inr (Or.inr (Or.inr (Or.inl (by decide)))))))⟩

/-- C5 counterexample: with the server running under the default
configuration, submitting a fully valid new configuration is applied — yet
the bound listener list is exactly what it was before the call, still
carrying the old CORS origin, which differs from the newly allowed one.  No
stop, grace delay, or start happens, so the claimed restart is not invoked
and responses of the running server do not carry CORS headers for the new
allowed origin. -/
theorem configUpdate_no_restart_counterexample :
    (DesktopApp.update_configuration runningState
        "http://10.0.0.2:15000" "http://10.0.0.2:5173" "0.0.0.0" "8000").2
      = UpdateOutcome.applied
  ∧ (DesktopApp.update_configuration runningState
        "http://10.0.0.2:15000" "http://10.0.0.2:5173" "0.0.0.0" "8000").1.serving
      = runningState.serving
  ∧ runningState.serving.map (fun l => l.app.corsOrigin)
      = ["http://192.168.1.8:5173"]
  ∧ ("http://192.168.1.8:5173" : String) ≠ "http://10.0.0.2:5173" := by
  refine ⟨?_, ?_, ?_, ?_⟩ <;> decide

/-- C5 amended: for every valid proposed configuration, update_configuration
replaces the active configuration of the ScannerProxyApp and rebuilds its
FastAPI app, whose CORS middleware now allows the new frontend origin — but
it invokes no restart: the bound listeners (and the running flag) are exactly
as before, so the running server keeps serving the app object it was started
with, while requests it serves are forwarded against the new backend base URL
immediately, because the route handlers read scanner_url at request time. -/
theorem validConfig_applied_without_restart (st : DesktopState) (a b c d : String)
    (h1 : pyStrip a ≠ "") (h2 : pyStrip b ≠ "") (h3 : pyStrip c ≠ "")
    (h4 : pyStrip d ≠ "") (h5 : pyIsdigit (pyStrip d) = true)
    (h6 : 1 ≤ pyInt (pyStrip d)) (h7 : pyInt (pyStrip d) ≤ 65535) :
    ∃ st2, DesktopApp.update_configuration st a b c d = (st2, UpdateOutcome.applied)
      ∧ st2.proxy.scanner_url = pyStrip a
      ∧ st2.proxy.frontend_url = pyStrip b
      ∧ st2.proxy.host = pyStrip c
      ∧ st2.proxy.port = pyInt (pyStrip d)
      ∧ st2.proxy.app.corsOrigin = pyStrip b
      ∧ st2.proxy.server_running = st.proxy.server_running
      ∧ st2.serving = st.serving
      ∧ ∀ l o, DesktopState.serveGetImages st2 l o
          = serveOn l (render (HandlerValue.json
              (ScannerBridge.get_images (pyStrip a) o))) := by
  refine ⟨{ st with proxy := (ScannerProxyApp.update_config st.proxy (pyStrip a)
      (pyStrip b) (pyStrip c) (pyStrip d)) }, ?_, rfl, rfl, rfl, rfl, rfl, rfl, rfl,
    fun l o => rfl⟩
  unfold DesktopApp.update_configuration
  rw [if_neg (by simp [h1, h2, h3, h4]), if_neg (by
    rw [not_or, not_or]
    exact ⟨by simp [h5], by omega, by omega⟩)]

/-- C5 amended witness: a concrete valid configuration submitted against the
running default state is applied, the app is rebuilt with the new origin, and
the listener list stays exactly as it was. -/
theorem validConfig_applied_without_restart_witness :
    pyStrip "http://10.0.0.2:15000" ≠ ""
  ∧ pyIsdigit (pyStrip "9000") = true
  ∧ (∃ st2, DesktopApp.update_configuration runningState
        "http://10.0.0.2:15000" "http://10.0.0.2:5173" "0.0.0.0" "9000"
        = (st2, UpdateOutcome.applied)
      ∧ st2.proxy.scanner_url = pyStrip "http://10.0.0.2:15000"
      ∧ st2.proxy.frontend_url = pyStrip "http://10.0.0.2:5173"
      ∧ st2.proxy.host = pyStrip "0.0.0.0"
      ∧ st2.proxy.port = pyInt (pyStrip "9000")
      ∧ st2.proxy.app.corsOrigin = pyStrip "http://10.0.0.2:5173"
      ∧ st2.proxy.server_running = runningState.proxy.server_running
      ∧ st2.serving = runningState.serving
      ∧ ∀ l o, DesktopState.serveGetImages st2 l o
          = serveOn l (render (HandlerValue.json
              (ScannerBridge.get_images (pyStrip "http://10.0.0.2:15000") o)))) :=
  ⟨by decide, by decide,
    validConfig_applied_without_restart runningState
      "http://10.0.0.2:15000" "http://10.0.0.2:5173" "0.0.0.0" "9000"
      (by decide) (by decide) (by decide) (by decide) (by decide) (by decide)
      (by decide)⟩

/-- C6 evaluated at the failing input: with the server running on the default
configuration, stop_server clears the running flag but the bound listener
list is untouched and nonempty — the serving loop is never told to shut down
and the listener is not released — and the subsequent start_server with the
same configuration ends with the running flag false again and the listener
list unchanged: its uvicorn.run cannot rebind the still-occupied port. -/
theorem stop_leaves_listener_bound :
    (DesktopApp.stop_server runningState).proxy.server_running = false
  ∧ (DesktopApp.stop_server runningState).serving = runningState.serving
  ∧ runningState.serving ≠ []
  ∧ (DesktopApp.start_server
      (DesktopApp.stop_server runningState)).1.proxy.server_running = false
  ∧ (DesktopApp.start_server
      (DesktopApp.stop_server runningState)).1.serving = runningState.serving := by
  refine ⟨?_, ?_, ?_, ?_, ?_⟩ <;> decide

/-- C7 evaluated at the failing input: for a 2xx upstream resource delivered
by the network in three chunks, client.get materialises the entire body in
Response.content before the handler builds its StreamingResponse, and the
response body it returns is that single fully buffered chunk — the whole
payload is held in memory, and the chunk structure of the upstream body is
not what is relayed. -/
theorem content_fully_buffered :
    (httpxGet ⟨200, [[1, 2], [3, 4], [5, 6]], some "image/png"⟩).content
      = [1, 2, 3, 4, 5, 6]
  ∧ (proxy_content "http://localhost:15000" "scan/1.png"
      (ContentOutcome.upstream ⟨200, [[1, 2], [3, 4], [5, 6]], some "image/png"⟩)).2
    = HandlerValue.stream [[1, 2, 3, 4, 5, 6]] (some "image/png") :=
  ⟨rfl, rfl⟩

/-- C8: calling start_server while the running flag is set leaves the whole
state unchanged and launches nothing, and calling stop_server while it is
clear likewise leaves the whole state unchanged. -/
theorem lifecycle_noop (st : DesktopState) :
    (st.proxy.server_running = true → DesktopApp.start_server st = (st, []))
  ∧ (st.proxy.server_running = false → DesktopApp.stop_server st = st) := by
  constructor
  · intro h
    simp [DesktopApp.start_server, h]
  · intro h
    simp [DesktopApp.stop_server, h]

/-- C8 witness: the no-ops at the concrete running and stopped states. -/
theorem lifecycle_noop_witness :
    runningState.proxy.server_running = true
  ∧ initialState.proxy.server_running = false
  ∧ DesktopApp.start_server runningState = (runningState, [])
  ∧ DesktopApp.stop_server initialState = initialState :=
  ⟨rfl, rfl, (lifecycle_noop runningState).1 rfl, (lifecycle_noop initialState).2 rfl⟩

/-- C9 counterexample: the start_server call on the freshly constructed state
performs no readiness probe whatsoever — no TCP connection attempt appears in
its action trace, against the claim that every start runs one. -/
theorem start_has_no_probe_counterexample :
    ¬ ∃ h p, LifecycleAction.probeTcp h p ∈ (DesktopApp.start_server initialState).2 := by
  rintro ⟨h, p, hm⟩
  simp [DesktopApp.start_server, initialState, ScannerProxyApp.init, portBound] at hm

/-- C9 amended: start_server performs no readiness probe at all — in every
state, its action trace contains no TCP connection attempt (it only spawns
the serving thread and sets the running flag; there is no poll interval, no
overall timeout, and no BindTimeout report in the source). -/
theorem start_never_probes (st : DesktopState) :
    ((DesktopApp.start_server st).2).filter isProbe = [] := by
  unfold DesktopApp.start_server
  split
  · rfl
  · split
    · rfl
    · rfl
